import Mathlib

/-!
A shallow embedding of the operation handlers in `src/cli/ops/os.rs`, together
with the parts of the surrounding machinery they use (permission gate, response
serialization, the two dispatch routers).  Host-side OS facilities — the
process-wide environment variables, the user home directory, the current
executable path, the working directory, terminal attachment — are modelled by
an explicit `Host` record threaded through every handler, so that reads and
writes of host state are visible in the handler's type.
-/

namespace DenoOs

/-- Log verbosity levels of the `log` crate (`log::Level`). -/
inductive Level where
  | error
  | warn
  | info
  | debug
  | trace
  deriving DecidableEq, Repr

/-- The flag settings stored in the sandbox state (`state.flags`), restricted to
the fields read by the handlers in `src/cli/ops/os.rs`. -/
structure Flags where
  log_level : Option Level
  xeval_delim : Option String
  version : Bool
  deriving DecidableEq, Repr

/-- Modelled from the spec: the Permission Gate policy stored in the sandbox
state (`DenoPermissions`, not under `src/`).  Only the environment category is
consulted by the handlers here, so only that category's decision is recorded
(spec §4.1: a pure query over the stored policy). -/
structure DenoPermissions where
  allow_env : Bool
  deriving DecidableEq, Repr

/-- The sandbox state `ThreadSafeState`: argv, flags, the optional main module
and the permission policy — the fields read by the handlers in this file. -/
structure ThreadSafeState where
  argv : List String
  flags : Flags
  main_module : Option String
  permissions : DenoPermissions
  deriving DecidableEq, Repr

/-- Modelled from the spec: the boxed error type `ErrBox` (spec §3 Error),
restricted to the kinds produced by the handlers here: a permission denial
carrying the denied category, and a request decoding error. -/
inductive Err where
  | permissionDenied (category : String)
  | jsonDecode (msg : String)
  deriving DecidableEq, Repr

/-- Modelled from the spec: `ThreadSafeState::check_env` (the permission query,
not under `src/`): `check(resource_category) -> Result<(), PermissionError>`,
a pure query over the stored policy that succeeds or fails with a
permission-denial error for the environment category (spec §4.1). -/
def ThreadSafeState.check_env (s : ThreadSafeState) : Except Err Unit :=
  if s.permissions.allow_env then .ok () else .error (.permissionDenied "env")

/-- The host operating-system state visible to the handlers: the process-wide
environment variables, the user home directory (`dirs::home_dir`), the current
executable path (`env::current_exe`), the working directory
(`env::current_dir().unwrap()`, modelled on a host that reports one), the
process id, color capability (`ansi::use_color`) and per-stream terminal
attachment (`atty::is`).  Home directories are modelled as UTF-8 strings, so
the second `unwrap_or_default` in `op_home_dir` (non-UTF-8 paths) coincides
with the first. -/
structure Host where
  env_vars : List (String × String)
  home_dir : Option String
  current_exe : Option String
  cwd : String
  pid : Nat
  use_color : Bool
  stdin_tty : Bool
  stdout_tty : Bool
  stderr_tty : Bool
  deriving DecidableEq, Repr

/-- `std::env::set_var`: process-wide environment update, replacing any
existing binding for the key (the OS environment holds one binding per key). -/
def set_var (env : List (String × String)) (key value : String) :
    List (String × String) :=
  (key, value) :: env.filter (fun kv => kv.1 ≠ key)

/-- The structured values (`serde_json::Value`) exchanged with the
generic-result handlers; non-integral numbers do not occur in these ops, so
numbers are modelled as integers. -/
inductive Value where
  | null
  | bool (b : Bool)
  | num (n : Int)
  | str (s : String)
  | arr (elems : List Value)
  | obj (fields : List (String × Value))

/-- The generic-result operation outcome `JsonOp`.  Every handler in
`src/cli/ops/os.rs` returns the synchronous shape, so only it is modelled. -/
inductive JsonOp where
  | sync (v : Value)

/-- The full outcome of running a handler body: a returned value, a returned
error (`Err`), a panic (an `unwrap` or `assert!` failure — a process-level
fault), or process termination (`std::process::exit`). -/
inductive Outcome (α : Type) where
  | ok (a : α)
  | err (e : Err)
  | panic
  | terminate (code : Int)
  deriving DecidableEq, Repr

/-- Whether an outcome is an error returned to the caller. -/
def Outcome.is_err {α : Type} : Outcome α → Bool
  | .err _ => true
  | _ => false

/-- The payload variants of the binary response envelope built by the
self-encoding handlers (`msg::StartRes`, `msg::HomeDirRes`), plus the encoded
error response the router produces for a failed operation and the minimal
payload of a completed empty response. -/
inductive ResponsePayload where
  | startRes (cwd : String) (pid : Nat) (argv : List String)
      (main_module : Option String) (debug_flag : Bool) (version_flag : Bool)
      (v8_version : String) (deno_version : String) (no_color : Bool)
      (xeval_delim : Option String)
  | homeDirRes (path : String)
  | errorRes (e : Err)
  | emptyRes
  deriving DecidableEq, Repr

/-- A response buffer: either a serialized response envelope whose header
carries the correlation id, or the zero-length buffer. -/
inductive Buf where
  | response (cmd_id : Nat) (payload : ResponsePayload)
  | empty
  deriving DecidableEq, Repr

/-- The correlation id in a buffer's header, when the buffer is a serialized
response. -/
def Buf.cmd_id_of : Buf → Option Nat
  | .response cid _ => some cid
  | .empty => none

/-- The debug flag carried by a `StartRes` response buffer, when it is one. -/
def Buf.start_debug_flag : Buf → Option Bool
  | .response _ (.startRes _ _ _ _ dbg _ _ _ _ _) => some dbg
  | _ => none

/-- Modelled from the spec: `serialize_response`
(`src/cli/ops/dispatch_flatbuffers.rs`, not under `src/`): deterministic
encoding of a correlation id, kind tag and payload into a self-contained
buffer whose fixed header carries the correlation id (spec §4.3). -/
def serialize_response (cmd_id : Nat) (payload : ResponsePayload) : Buf :=
  .response cmd_id payload

/-- Modelled from the spec: `empty_buf` (`src/cli/ops/utils.rs`, not under
`src/`): the zero-length response buffer. -/
def empty_buf : Buf := .empty

/-- Modelled from the spec: `ok_buf` (`src/cli/ops/utils.rs`, not under
`src/`): wraps a finished buffer as a successful synchronous operation
result. -/
def ok_buf (b : Buf) : Outcome Buf := .ok b

/-- The fields of a `SetEnv` request message.  Flatbuffer fields are optional
at the accessor interface: `inner.key()` and `inner.value()` return options. -/
structure SetEnvInner where
  key : Option String
  value : Option String
  deriving DecidableEq, Repr

/-- The operation-specific inner message of a request envelope; only the
`SetEnv` shape is inspected by the handlers here, the rest are opaque. -/
inductive InnerMsg where
  | setEnv (inner : SetEnvInner)
  | otherMsg
  deriving DecidableEq, Repr

/-- The request envelope `msg::Base`: a correlation id (`cmd_id`) and an inner
message. -/
structure Base where
  cmd_id : Nat
  inner : InnerMsg
  deriving DecidableEq, Repr

/-- `base.inner_as_set_env()`: the inner message viewed as a `SetEnv` message,
when it is one. -/
def Base.inner_as_set_env (b : Base) : Option SetEnvInner :=
  match b.inner with
  | .setEnv i => some i
  | _ => none

/-- The optional zero-copy binary payload attached to a request.  Its content
is irrelevant to these handlers: they only assert its absence. -/
abbrev PinnedBuf := List Nat

/-- Splits a character list into its slash-separated segments. -/
def split_slash : List Char → List (List Char)
  | [] => [[]]
  | c :: cs =>
    if c = '/' then [] :: split_slash cs
    else
      match split_slash cs with
      | [] => [[c]]
      | seg :: rest => (c :: seg) :: rest

/-- Joins segments back into a slash-separated character list. -/
def join_slash : List (List Char) → List Char
  | [] => []
  | [seg] => seg
  | seg :: rest => seg ++ '/' :: join_slash rest

/-- Modelled from the spec: `deno_fs::normalize_path` (`crate::fs`, not under
`src/`): removes `.` segments and resolves `..` segments of a slash-separated
path (spec §4.4 start: "normalized — no relative path segments"). -/
def normalize_path (p : String) : String :=
  String.mk (join_slash ((split_slash p.data).foldl
    (fun acc seg =>
      if seg = ['.'] then acc
      else if seg = ['.', '.'] then acc.dropLast
      else acc ++ [seg]) []))

/-- Whether a path is absolute, i.e. begins with a slash. -/
def is_absolute (p : String) : Bool :=
  match p.data with
  | c :: _ => c = '/'
  | [] => false

/-- Modelled from the spec: `version::v8()` (not under `src/`), an embedded
version string constant; its value is irrelevant to every claim. -/
def version_v8 : String := "7.6.53"

/-- Modelled from the spec: `version::DENO` (not under `src/`), an embedded
version string constant; its value is irrelevant to every claim. -/
def version_DENO : String := "0.12.0"

/-- The `Url::from_file_path` / `to_file_path` round trip of the `url` crate
used by `op_exec_path`: defined only for absolute paths (`from_file_path`
fails otherwise), and resolves `.` and `..` segments. -/
def url_file_path_roundtrip (p : String) : Option String :=
  if is_absolute p then some (normalize_path p) else none

/-- `op_start` (src/cli/ops/os.rs:18-81): builds the `StartRes` response from
the sandbox state and the host — normalized working directory, pid, argv, main
module, debug flag (`log_level.map_or(false, |l| l == Debug)`), version flag,
version strings, color capability, xeval delimiter — serialized under the
request's command id.  `assert!(data.is_none())` panics on a present payload. -/
def op_start (state : ThreadSafeState) (base : Base) (data : Option PinnedBuf)
    (h : Host) : Outcome Buf × Host :=
  if data.isSome then (.panic, h)
  else
    let debug_flag :=
      match state.flags.log_level with
      | some l => l == Level.debug
      | none => false
    (ok_buf (serialize_response base.cmd_id
      (.startRes (normalize_path h.cwd) h.pid state.argv state.main_module
        debug_flag state.flags.version version_v8 version_DENO
        (!h.use_color) state.flags.xeval_delim)), h)

/-- `op_home_dir` (src/cli/ops/os.rs:83-111): after the environment permission
check, reads `dirs::home_dir()`, falling back to the empty string when the
host has none, and serializes a `HomeDirRes` under the request's command id. -/
def op_home_dir (state : ThreadSafeState) (base : Base) (data : Option PinnedBuf)
    (h : Host) : Outcome Buf × Host :=
  if data.isSome then (.panic, h)
  else
    let cmd_id := base.cmd_id
    match state.check_env with
    | .error e => (.err e, h)
    | .ok () =>
      let path := h.home_dir.getD ""
      (ok_buf (serialize_response cmd_id (.homeDirRes path)), h)

/-- `op_exec_path` (src/cli/ops/os.rs:113-125): after the environment
permission check, `env::current_exe().unwrap()` (panics when the host cannot
resolve the executable path) followed by the unwrapped `Url` file-path round
trip (panics when the path cannot be canonicalized), returning the resolved
path as a JSON string. -/
def op_exec_path (state : ThreadSafeState) (_args : Value)
    (_zero_copy : Option PinnedBuf) (h : Host) : Outcome JsonOp × Host :=
  match state.check_env with
  | .error e => (.err e, h)
  | .ok () =>
    match h.current_exe with
    | none => (.panic, h)
    | some exe =>
      match url_file_path_roundtrip exe with
      | none => (.panic, h)
      | some path => (.ok (.sync (.str path)), h)

/-- `op_set_env` (src/cli/ops/os.rs:127-139): asserts the payload absent,
unwraps the `SetEnv` inner message and its key and value fields (each `unwrap`
panics when missing), then — only after the environment permission check —
performs `env::set_var(key, value)` and returns the empty buffer. -/
def op_set_env (state : ThreadSafeState) (base : Base) (data : Option PinnedBuf)
    (h : Host) : Outcome Buf × Host :=
  if data.isSome then (.panic, h)
  else
    match base.inner_as_set_env with
    | none => (.panic, h)
    | some inner =>
      match inner.key with
      | none => (.panic, h)
      | some key =>
        match inner.value with
        | none => (.panic, h)
        | some value =>
          match state.check_env with
          | .error e => (.err e, h)
          | .ok () =>
            (ok_buf empty_buf, { h with env_vars := set_var h.env_vars key value })

/-- `op_env` (src/cli/ops/os.rs:141-149): after the environment permission
check, snapshots `env::vars()` into a map and returns it as a JSON object. -/
def op_env (state : ThreadSafeState) (_args : Value)
    (_zero_copy : Option PinnedBuf) (h : Host) : Outcome JsonOp × Host :=
  match state.check_env with
  | .error e => (.err e, h)
  | .ok () =>
    (.ok (.sync (.obj (h.env_vars.map fun kv => (kv.1, Value.str kv.2)))), h)

/-- The `Exit` argument struct of `op_exit` (src/cli/ops/os.rs:151-154), whose
`code` field is an `i32`. -/
structure Exit where
  code : Int
  deriving DecidableEq, Repr

/-- `serde_json::from_value::<Exit>`: decodes the `Exit` argument struct from
a JSON value; requires an object with an integral `code` field in `i32` range
(the default serde derive ignores unknown fields). -/
def from_value_exit (v : Value) : Except Err Exit :=
  match v with
  | .obj fields =>
    match fields.lookup "code" with
    | some (.num n) =>
      if -(2 ^ 31) ≤ n ∧ n < 2 ^ 31 then .ok ⟨n⟩
      else .error (.jsonDecode "invalid value: integer out of range for i32")
    | some _ => .error (.jsonDecode "invalid type for field code")
    | none => .error (.jsonDecode "missing field code")
  | _ => .error (.jsonDecode "invalid type: expected struct Exit")

/-- `op_exit` (src/cli/ops/os.rs:156-163): decodes the `Exit` arguments (the
`?` returns a decoding error to the caller) and calls
`std::process::exit(args.code)`, which terminates the whole process and never
returns. -/
def op_exit (_s : ThreadSafeState) (args : Value) (_zero_copy : Option PinnedBuf)
    (h : Host) : Outcome JsonOp × Host :=
  match from_value_exit args with
  | .error e => (.err e, h)
  | .ok a => (.terminate a.code, h)

/-- `op_is_tty` (src/cli/ops/os.rs:165-175): returns the three per-stream
`atty::is` queries as a JSON object; it reads nothing from the sandbox state
and performs no permission check. -/
def op_is_tty (_s : ThreadSafeState) (_args : Value)
    (_zero_copy : Option PinnedBuf) (h : Host) : Outcome JsonOp × Host :=
  (.ok (.sync (.obj
    [("stdin", .bool h.stdin_tty),
     ("stdout", .bool h.stdout_tty),
     ("stderr", .bool h.stderr_tty)])), h)

/-- Modelled from the spec: the router's handling of a self-encoding handler's
outcome (`src/cli/ops/dispatch_flatbuffers.rs`, not under `src/`; spec §4.2,
§7, §8): a finished buffer passes through; an empty synchronous buffer is
completed into a minimal response under the correlation id captured at
dispatch time; a returned error is converted into an encoded error response
under that id (every response carries its request's correlation id); a panic
or a process termination delivers no response. -/
def dispatch_flatbuffers (base : Base) (out : Outcome Buf) : Option Buf :=
  match out with
  | .ok .empty => some (.response base.cmd_id .emptyRes)
  | .ok b => some b
  | .err e => some (.response base.cmd_id (.errorRes e))
  | .panic => none
  | .terminate _ => none

/-- A generic-result (JSON) response delivered to the caller: the correlation
id captured at dispatch time together with the handler's value or error. -/
structure JsonResponse where
  cmd_id : Nat
  result : Except Err Value

/-- Modelled from the spec: the generic-result router (`dispatch_json`, not
under `src/`; spec §4.2, §4.3, §6): a synchronous value or a returned error is
encoded into a response wrapped in the outer correlation header carrying the
id captured at dispatch time; a panic or a process termination delivers no
response. -/
def dispatch_json (cmd_id : Nat) (out : Outcome JsonOp) : Option JsonResponse :=
  match out with
  | .ok (.sync v) => some ⟨cmd_id, .ok v⟩
  | .err e => some ⟨cmd_id, .error e⟩
  | .panic => none
  | .terminate _ => none

/-- A sample sandbox state whose gate denies the environment category. -/
def state_denied : ThreadSafeState :=
  { argv := ["deno"]
    flags := { log_level := none, xeval_delim := none, version := false }
    main_module := none
    permissions := { allow_env := false } }

/-- A sample sandbox state whose gate grants the environment category. -/
def state_allowed : ThreadSafeState :=
  { argv := ["deno"]
    flags := { log_level := some .debug, xeval_delim := none, version := false }
    main_module := none
    permissions := { allow_env := true } }

/-- A sample host. -/
def host0 : Host :=
  { env_vars := [("PATH", "/usr/bin")]
    home_dir := some "/home/user"
    current_exe := some "/usr/bin/deno"
    cwd := "/work"
    pid := 42
    use_color := true
    stdin_tty := true
    stdout_tty := false
    stderr_tty := true }

/-- A host that cannot resolve its executable path and has no configured home
directory. -/
def host_bare : Host :=
  { host0 with current_exe := none, home_dir := none }

/-- The fields of a sample well-formed set-environment-variable request. -/
def inner_foo : SetEnvInner := { key := some "FOO", value := some "bar" }

/-- A sample well-formed set-environment-variable request. -/
def base_set_env : Base := { cmd_id := 5, inner := .setEnv inner_foo }

/-- A set-environment-variable request lacking its key field. -/
def base_missing_key : Base :=
  { cmd_id := 6, inner := .setEnv { key := none, value := some "bar" } }

/-- A sample exit request argument carrying status code 7. -/
def exit7 : Value := .obj [("code", .num 7)]

/-- The response delivered for the start request in the C2 witness scenario. -/
def wbuf_start : Buf :=
  .response 5 (.startRes "/work" 42 ["deno"] none true false "7.6.53" "0.12.0"
    false none)

/-- The response delivered for the home-directory request in the C2 witness
scenario. -/
def wbuf_home : Buf := .response 5 (.homeDirRes "/home/user")

/-- The response delivered for the set-environment-variable request in the C2
witness scenario. -/
def wbuf_set : Buf := .response 5 .emptyRes

/-- The response delivered for the read-all-environment-variables request in
the C2 witness scenario. -/
def wresp_env : JsonResponse := ⟨5, .ok (.obj [("PATH", .str "/usr/bin")])⟩

/-- The response delivered for the exec-path request in the C2 witness
scenario. -/
def wresp_exec : JsonResponse := ⟨5, .ok (.str "/usr/bin/deno")⟩

/-- The response delivered for the malformed exit request in the C2 witness
scenario. -/
def wresp_exit : JsonResponse :=
  ⟨5, .error (.jsonDecode "invalid type: expected struct Exit")⟩

theorem dispatch_json_cmd_id_eq (cmd : Nat) (out : Outcome JsonOp)
    (r : JsonResponse) (hr : dispatch_json cmd out = some r) : r.cmd_id = cmd := by
  cases out with
  | ok j =>
    cases j with
    | sync v =>
      simp [dispatch_json] at hr
      simp [← hr]
  | err e =>
    simp [dispatch_json] at hr
    simp [← hr]
  | panic => simp [dispatch_json] at hr
  | terminate c => simp [dispatch_json] at hr

/-- Claim C1: when the Permission Gate denies the environment category, every
environment operation — home-directory, exec-path, set-environment-variable
(with its fields present) and read-all-environment-variables — returns the
permission-denial error and leaves the host unchanged: no environment variable
is set and no environment, home or exec-path value is read into a response. -/
theorem C1_env_denied_is_error (s : ThreadSafeState) (h : Host) (base : Base)
    (inner : SetEnvInner) (k v : String) (args : Value)
    (hdeny : s.permissions.allow_env = false)
    (hinner : base.inner_as_set_env = some inner)
    (hk : inner.key = some k) (hv : inner.value = some v) :
    op_home_dir s base none h = (.err (.permissionDenied "env"), h) ∧
    op_exec_path s args none h = (.err (.permissionDenied "env"), h) ∧
    op_set_env s base none h = (.err (.permissionDenied "env"), h) ∧
    op_env s args none h = (.err (.permissionDenied "env"), h) := by
  refine ⟨?_, ?_, ?_, ?_⟩ <;>
    simp [op_home_dir, op_exec_path, op_set_env, op_env,
      ThreadSafeState.check_env, hdeny, hinner, hk, hv]

/-- Claim C1 witness: the theorem applied at a concrete denied state, concrete
requests and a concrete host. -/
theorem C1_env_denied_is_error_witness :
    (state_denied.permissions.allow_env = false ∧
     base_set_env.inner_as_set_env = some inner_foo ∧
     inner_foo.key = some "FOO" ∧ inner_foo.value = some "bar") ∧
    (op_home_dir state_denied base_set_env none host0 =
        (.err (.permissionDenied "env"), host0) ∧
     op_exec_path state_denied Value.null none host0 =
        (.err (.permissionDenied "env"), host0) ∧
     op_set_env state_denied base_set_env none host0 =
        (.err (.permissionDenied "env"), host0) ∧
     op_env state_denied Value.null none host0 =
        (.err (.permissionDenied "env"), host0)) :=
  ⟨⟨rfl, rfl, rfl, rfl⟩,
   C1_env_denied_is_error state_denied host0 base_set_env inner_foo "FOO" "bar"
     Value.null rfl rfl rfl rfl⟩

/-- Claim C3 counterexample: with environment permission granted but the host
unable to resolve the current executable path, `op_exec_path` panics (the
`unwrap` on `env::current_exe()`): the outcome is not an operation-level error
returned to the caller, and no response is delivered. -/
theorem C3_counterexample :
    (op_exec_path state_allowed Value.null none host_bare).1 = .panic ∧
    Outcome.is_err (op_exec_path state_allowed Value.null none host_bare).1 = false ∧
    dispatch_json 5 (op_exec_path state_allowed Value.null none host_bare).1 = none :=
  ⟨rfl, rfl, rfl⟩

/-- Claim C3 (amended): when the permission check passes but the host cannot
resolve the current executable path, or the resolved path cannot be taken
through the file-URL round trip, `op_exec_path` panics — a process-level fault
from `unwrap`, not an operation-level error returned to the caller and not a
silent default value; on a resolvable, canonicalizable path it succeeds with
the resolved path. -/
theorem C3_exec_path_fault_amended (s : ThreadSafeState) (h : Host) (args : Value)
    (z : Option PinnedBuf) (hallow : s.permissions.allow_env = true) :
    (h.current_exe = none → (op_exec_path s args z h).1 = .panic) ∧
    (∀ p, h.current_exe = some p → url_file_path_roundtrip p = none →
      (op_exec_path s args z h).1 = .panic) ∧
    (∀ p q, h.current_exe = some p → url_file_path_roundtrip p = some q →
      (op_exec_path s args z h).1 = .ok (.sync (.str q))) := by
  refine ⟨?_, ?_, ?_⟩
  · intro he
    simp [op_exec_path, ThreadSafeState.check_env, hallow, he]
  · intro p he hu
    simp [op_exec_path, ThreadSafeState.check_env, hallow, he, hu]
  · intro p q he hu
    simp [op_exec_path, ThreadSafeState.check_env, hallow, he, hu]

/-- Claim C3 (amended) witness: the theorem applied at a concrete granted
state and a concrete host with no resolvable executable path. -/
theorem C3_exec_path_fault_amended_witness :
    (state_allowed.permissions.allow_env = true ∧ host_bare.current_exe = none) ∧
    (op_exec_path state_allowed Value.null none host_bare).1 = .panic :=
  ⟨⟨rfl, rfl⟩,
   (C3_exec_path_fault_amended state_allowed host_bare Value.null none rfl).1 rfl⟩

/-- Claim C4: when the exit request's arguments decode to an integer status
code, `op_exit` terminates the whole process with that code: the outcome is a
process termination, the host is untouched, and the router delivers no
response to the caller. -/
theorem C4_exit_terminates (s : ThreadSafeState) (h : Host) (args : Value)
    (z : Option PinnedBuf) (a : Exit) (cmd : Nat)
    (hdec : from_value_exit args = .ok a) :
    op_exit s args z h = (.terminate a.code, h) ∧
    dispatch_json cmd (op_exit s args z h).1 = none := by
  simp [op_exit, hdec, dispatch_json]

/-- Claim C4 witness: the theorem applied to the exit request with code 7. -/
theorem C4_exit_terminates_witness :
    from_value_exit exit7 = .ok ⟨7⟩ ∧
    (op_exit state_allowed exit7 none host0 = (.terminate (7 : Int), host0) ∧
     dispatch_json 5 (op_exit state_allowed exit7 none host0).1 = none) :=
  ⟨rfl, C4_exit_terminates state_allowed host0 exit7 none ⟨7⟩ 5 rfl⟩

/-- Claim C5: with environment permission granted and no configured home
directory on the host, `op_home_dir` does not fail: it returns a successful
response, under the request's command id, whose path payload is the empty
string. -/
theorem C5_home_dir_unknown_is_empty (s : ThreadSafeState) (h : Host) (base : Base)
    (hallow : s.permissions.allow_env = true) (hhome : h.home_dir = none) :
    op_home_dir s base none h =
      (.ok (.response base.cmd_id (.homeDirRes "")), h) := by
  simp [op_home_dir, ThreadSafeState.check_env, hallow, hhome, ok_buf,
    serialize_response]

/-- Claim C5 witness: the theorem applied at a concrete granted state and a
concrete host with no home directory. -/
theorem C5_home_dir_unknown_is_empty_witness :
    (state_allowed.permissions.allow_env = true ∧ host_bare.home_dir = none) ∧
    op_home_dir state_allowed base_set_env none host_bare =
      (.ok (.response 5 (.homeDirRes "")), host_bare) :=
  ⟨⟨rfl, rfl⟩,
   C5_home_dir_unknown_is_empty state_allowed host_bare base_set_env rfl rfl⟩

/-- Claim C6 counterexample: a set-environment-variable request lacking its
key field makes `op_set_env` panic (an `unwrap` on a missing flatbuffer
field) — a process-level fault, not a request-level decoding error returned to
the caller. -/
theorem C6_counterexample :
    (op_set_env state_allowed base_missing_key none host0).1 = .panic ∧
    Outcome.is_err (op_set_env state_allowed base_missing_key none host0).1 = false :=
  ⟨rfl, rfl⟩

/-- Claim C6 (amended): an exit request whose arguments do not decode to an
integer yields a request-level decoding error returned to the caller; but a
set-environment-variable request whose inner message is missing, or lacking
its key or value field, makes the handler panic — a process-level fault —
instead of returning a decoding error. -/
theorem C6_malformed_amended (s : ThreadSafeState) (h : Host) (args : Value)
    (z : Option PinnedBuf) (base : Base) (e : Err)
    (hdec : from_value_exit args = .error e) :
    (op_exit s args z h).1 = .err e ∧
    (base.inner_as_set_env = none → (op_set_env s base none h).1 = .panic) ∧
    (∀ i, base.inner_as_set_env = some i → i.key = none →
      (op_set_env s base none h).1 = .panic) ∧
    (∀ i k, base.inner_as_set_env = some i → i.key = some k → i.value = none →
      (op_set_env s base none h).1 = .panic) := by
  refine ⟨?_, ?_, ?_, ?_⟩
  · simp [op_exit, hdec]
  · intro hi
    simp [op_set_env, hi]
  · intro i hi hk
    simp [op_set_env, hi, hk]
  · intro i k hi hk hv
    simp [op_set_env, hi, hk, hv]

/-- Claim C6 (amended) witness: the theorem applied to a non-object exit
argument and to the request lacking its key field. -/
theorem C6_malformed_amended_witness :
    (from_value_exit Value.null =
        .error (.jsonDecode "invalid type: expected struct Exit") ∧
     base_missing_key.inner_as_set_env = some { key := none, value := some "bar" }) ∧
    ((op_exit state_allowed Value.null none host0).1 =
        .err (.jsonDecode "invalid type: expected struct Exit") ∧
     (op_set_env state_allowed base_missing_key none host0).1 = .panic) :=
  ⟨⟨rfl, rfl⟩,
   ⟨(C6_malformed_amended state_allowed host0 Value.null none base_missing_key
       (.jsonDecode "invalid type: expected struct Exit") rfl).1,
    (C6_malformed_amended state_allowed host0 Value.null none base_missing_key
       (.jsonDecode "invalid type: expected struct Exit") rfl).2.2.1
      { key := none, value := some "bar" } rfl rfl⟩⟩

/-- Claim C2: for every request a handler handles successfully — whether a
self-encoding flatbuffer handler (start, home-directory,
set-environment-variable) or a generic JSON handler (read-all-environment-
variables, exec-path, exit) — the response the router delivers carries the
request's command id as its correlation id. -/
theorem C2_response_correlation_id (s : ThreadSafeState) (h : Host) (base : Base)
    (data : Option PinnedBuf) (args : Value) (b1 b2 b3 : Buf)
    (r1 r2 r3 : JsonResponse) :
    (dispatch_flatbuffers base (op_start s base data h).1 = some b1 →
      b1.cmd_id_of = some base.cmd_id) ∧
    (dispatch_flatbuffers base (op_home_dir s base data h).1 = some b2 →
      b2.cmd_id_of = some base.cmd_id) ∧
    (dispatch_flatbuffers base (op_set_env s base data h).1 = some b3 →
      b3.cmd_id_of = some base.cmd_id) ∧
    (dispatch_json base.cmd_id (op_env s args data h).1 = some r1 →
      r1.cmd_id = base.cmd_id) ∧
    (dispatch_json base.cmd_id (op_exec_path s args data h).1 = some r2 →
      r2.cmd_id = base.cmd_id) ∧
    (dispatch_json base.cmd_id (op_exit s args data h).1 = some r3 →
      r3.cmd_id = base.cmd_id) := by
  refine ⟨?_, ?_, ?_,
    fun hr => dispatch_json_cmd_id_eq _ _ _ hr,
    fun hr => dispatch_json_cmd_id_eq _ _ _ hr,
    fun hr => dispatch_json_cmd_id_eq _ _ _ hr⟩
  · intro hb
    unfold op_start at hb
    split at hb
    · simp [dispatch_flatbuffers] at hb
    · simp [ok_buf, serialize_response, dispatch_flatbuffers] at hb
      simp [← hb, Buf.cmd_id_of]
  · intro hb
    unfold op_home_dir at hb
    split at hb
    · simp [dispatch_flatbuffers] at hb
    · split at hb
      · simp [dispatch_flatbuffers] at hb
        simp [← hb, Buf.cmd_id_of]
      · simp [ok_buf, serialize_response, dispatch_flatbuffers] at hb
        simp [← hb, Buf.cmd_id_of]
  · intro hb
    unfold op_set_env at hb
    split at hb
    · simp [dispatch_flatbuffers] at hb
    · split at hb
      · simp [dispatch_flatbuffers] at hb
      · split at hb
        · simp [dispatch_flatbuffers] at hb
        · split at hb
          · simp [dispatch_flatbuffers] at hb
          · split at hb
            · simp [dispatch_flatbuffers] at hb
              simp [← hb, Buf.cmd_id_of]
            · simp [ok_buf, empty_buf, dispatch_flatbuffers] at hb
              simp [← hb, Buf.cmd_id_of]

/-- Claim C2 witness: the theorem applied at a concrete granted state, the
concrete set-env request (command id 5), concrete arguments and host, with
each of the six deliveries evaluated. -/
theorem C2_response_correlation_id_witness :
    (dispatch_flatbuffers base_set_env
        (op_start state_allowed base_set_env none host0).1 = some wbuf_start ∧
     dispatch_flatbuffers base_set_env
        (op_home_dir state_allowed base_set_env none host0).1 = some wbuf_home ∧
     dispatch_flatbuffers base_set_env
        (op_set_env state_allowed base_set_env none host0).1 = some wbuf_set ∧
     dispatch_json 5 (op_env state_allowed Value.null none host0).1 =
       some wresp_env ∧
     dispatch_json 5 (op_exec_path state_allowed Value.null none host0).1 =
       some wresp_exec ∧
     dispatch_json 5 (op_exit state_allowed Value.null none host0).1 =
       some wresp_exit) ∧
    (wbuf_start.cmd_id_of = some base_set_env.cmd_id ∧
     wbuf_home.cmd_id_of = some base_set_env.cmd_id ∧
     wbuf_set.cmd_id_of = some base_set_env.cmd_id ∧
     wresp_env.cmd_id = base_set_env.cmd_id ∧
     wresp_exec.cmd_id = base_set_env.cmd_id ∧
     wresp_exit.cmd_id = base_set_env.cmd_id) :=
  ⟨⟨rfl, rfl, rfl, rfl, rfl, rfl⟩,
   ⟨(C2_response_correlation_id state_allowed host0 base_set_env none Value.null
       wbuf_start wbuf_home wbuf_set wresp_env wresp_exec wresp_exit).1 rfl,
    (C2_response_correlation_id state_allowed host0 base_set_env none Value.null
       wbuf_start wbuf_home wbuf_set wresp_env wresp_exec wresp_exit).2.1 rfl,
    (C2_response_correlation_id state_allowed host0 base_set_env none Value.null
       wbuf_start wbuf_home wbuf_set wresp_env wresp_exec wresp_exit).2.2.1 rfl,
    (C2_response_correlation_id state_allowed host0 base_set_env none Value.null
       wbuf_start wbuf_home wbuf_set wresp_env wresp_exec wresp_exit).2.2.2.1 rfl,
    (C2_response_correlation_id state_allowed host0 base_set_env none Value.null
       wbuf_start wbuf_home wbuf_set wresp_env wresp_exec wresp_exit).2.2.2.2.1 rfl,
    (C2_response_correlation_id state_allowed host0 base_set_env none Value.null
       wbuf_start wbuf_home wbuf_set wresp_env wresp_exec wresp_exit).2.2.2.2.2 rfl⟩⟩

/-- Claim C7: with environment permission granted, dispatching
set-environment-variable with key FOO and value bar succeeds, and
read-all-environment-variables on the resulting host yields a mapping
containing the entry FOO maps-to bar: the snapshot read after the write
reflects the write. -/
theorem C7_set_then_read (s : ThreadSafeState) (h : Host) (base : Base)
    (args : Value) (hallow : s.permissions.allow_env = true)
    (hinner : base.inner_as_set_env = some inner_foo) :
    (op_set_env s base none h).1 = .ok empty_buf ∧
    ∃ fields,
      (op_env s args none (op_set_env s base none h).2).1 =
        .ok (.sync (.obj fields)) ∧
      fields.lookup "FOO" = some (.str "bar") := by
  constructor
  · simp [op_set_env, hinner, inner_foo, ThreadSafeState.check_env, hallow,
      ok_buf, empty_buf]
  · refine ⟨("FOO", Value.str "bar") ::
      ((h.env_vars.filter fun kv => kv.1 ≠ "FOO").map
        fun kv => (kv.1, Value.str kv.2)), ?_, ?_⟩
    · simp [op_set_env, op_env, hinner, inner_foo, ThreadSafeState.check_env,
        hallow, set_var, ok_buf, empty_buf]
    · rfl

/-- Claim C7 witness: the theorem applied at a concrete granted state, the
concrete FOO/bar request and a concrete host. -/
theorem C7_set_then_read_witness :
    (state_allowed.permissions.allow_env = true ∧
     base_set_env.inner_as_set_env = some inner_foo) ∧
    ((op_set_env state_allowed base_set_env none host0).1 = .ok empty_buf ∧
     ∃ fields,
       (op_env state_allowed Value.null none
           (op_set_env state_allowed base_set_env none host0).2).1 =
         .ok (.sync (.obj fields)) ∧
       fields.lookup "FOO" = some (.str "bar")) :=
  ⟨⟨rfl, rfl⟩, C7_set_then_read state_allowed host0 base_set_env Value.null rfl rfl⟩

/-- Claim C8: for every sandbox state, the start response exists and its debug
flag is true exactly when the configured log level is the debug level; an
unset level and every other level yield false. -/
theorem C8_start_debug_flag (s : ThreadSafeState) (h : Host) (base : Base) :
    ∃ b, (op_start s base none h).1 = .ok b ∧
      (b.start_debug_flag = some true ↔ s.flags.log_level = some Level.debug) := by
  refine ⟨_, rfl, ?_⟩
  cases hl : s.flags.log_level with
  | none => simp [hl, serialize_response, Buf.start_debug_flag]
  | some l => cases l <;> simp [hl, serialize_response, Buf.start_debug_flag]

/-- Claim C9: when the exit request's arguments fail to decode to an integer
status code, `op_exit` returns the decoding error with the host unchanged and
does not terminate the process. -/
theorem C9_exit_decode_error_no_terminate (s : ThreadSafeState) (h : Host)
    (args : Value) (z : Option PinnedBuf) (e : Err)
    (hdec : from_value_exit args = .error e) :
    op_exit s args z h = (.err e, h) ∧
    ∀ c : Int, (op_exit s args z h).1 ≠ .terminate c := by
  constructor
  · simp [op_exit, hdec]
  · intro c
    simp [op_exit, hdec]

/-- Claim C9 witness: the theorem applied to a non-object exit argument. -/
theorem C9_exit_decode_error_no_terminate_witness :
    from_value_exit Value.null =
      .error (.jsonDecode "invalid type: expected struct Exit") ∧
    (op_exit state_allowed Value.null none host0 =
        (.err (.jsonDecode "invalid type: expected struct Exit"), host0) ∧
     ∀ c : Int, (op_exit state_allowed Value.null none host0).1 ≠ .terminate c) :=
  ⟨rfl, C9_exit_decode_error_no_terminate state_allowed host0 Value.null none
    (.jsonDecode "invalid type: expected struct Exit") rfl⟩

/-- Claim C10: `op_is_tty` consults neither the Permission Gate nor any field
of the sandbox state: any two sandbox states (and any arguments and payloads)
give the same successful three-boolean response on the same host, and the
outcome is never an error — in particular never a permission denial. -/
theorem C10_is_tty_state_independent (s1 s2 : ThreadSafeState) (a1 a2 : Value)
    (z1 z2 : Option PinnedBuf) (h : Host) :
    op_is_tty s1 a1 z1 h = op_is_tty s2 a2 z2 h ∧
    (op_is_tty s1 a1 z1 h).1 =
      .ok (.sync (.obj
        [("stdin", .bool h.stdin_tty),
         ("stdout", .bool h.stdout_tty),
         ("stderr", .bool h.stderr_tty)])) ∧
    Outcome.is_err (op_is_tty s1 a1 z1 h).1 = false :=
  ⟨rfl, rfl, rfl⟩

end DenoOs
